import Mathlib

/-!
Verification of the consent reconciliation engine
(`src/consent-manager-builder/index.tsx`).

The engine's TypeScript is shallowly embedded: JavaScript objects holding
tri-state consent values become association lists over an explicit JavaScript
value type (so a key present with value `undefined` is distinguishable from an
absent key, exactly as `'a' in {a: undefined}` is true while the lookup yields
`undefined`), object spread becomes `objSpread`, and the React component's
state transitions become pure functions from the previous state and the
resolved external inputs to the next state plus a list of emitted effects
(preference-store writes and analytics activations).
-/

/-- The values a `CategoryPreferences` object can store for a key, plus the
`undefined` a lookup of an absent key yields: `true`/`false`/`null` as in the
TypeScript type `boolean | null | undefined`. -/
inductive JSVal where
  | undef
  | null
  | bool (b : Bool)
deriving DecidableEq, Repr

/-- The JavaScript test `v === undefined` used by `destinationsWithoutConsent`. -/
def JSVal.isUndef : JSVal → Bool
  | .undef => true
  | _ => false

/-- JavaScript truthiness of a stored value, as used by
`Object.values(initialPreferences || {}).some(Boolean)`. -/
def JSVal.isTruthy : JSVal → Bool
  | .bool true => true
  | _ => false

/-- The test `v === null || v === undefined` used for
`emptyCustomPreferecences` in `initialise`. -/
def JSVal.isNullOrUndef : JSVal → Bool
  | .undef => true
  | .null => true
  | _ => false

/-- A JavaScript object of consent values: an association list from keys to
stored values. An entry `(k, JSVal.undef)` models a key explicitly present
with value `undefined`. -/
abbrev Prefs := List (String × JSVal)

/-- JavaScript property read `p[k]`: the stored value when the key is present,
`undefined` when it is absent. -/
def getJS (p : Prefs) (k : String) : JSVal :=
  (List.lookup k p).getD JSVal.undef

/-- JavaScript object spread `{...e, ...n}`: every key of `e` keeps its
position but takes `n`'s value when `n` also has the key, and the keys of `n`
not in `e` are appended. -/
def objSpread (e n : Prefs) : Prefs :=
  e.map (fun kv => (kv.1, (List.lookup kv.1 n).getD kv.2)) ++
    n.filter (fun kv => (List.lookup kv.1 e).isNone)

/-- A destination: the engine only ever interprets its stable `id`; the other
descriptive fields (represented by `name`) are passed through unmodified. -/
structure Destination where
  id : String
  name : String := ""
deriving DecidableEq, Repr

/-- `destinationsWithoutConsent(destinations, destinationPreferences)`
(src lines 17-26): with no mapping every destination is returned; otherwise
the destinations whose stored value is `undefined`
(`destinationPreferences[d.id] === undefined`). -/
def destinationsWithoutConsent (destinations : List Destination)
    (destinationPreferences : Option Prefs) : List Destination :=
  match destinationPreferences with
  | none => destinations
  | some p => destinations.filter (fun d => (getJS p d.id).isUndef)

/-- `mergePreferences(destinations, existingPreferences, newPreferences)`
(src lines 253-274): a boolean `newPreferences` is broadcast over every
destination id by `destinations.reduce((prefs, d) => ({...prefs, [d.id]: b}), {})`;
otherwise the result is the spread `{...existingPreferences, ...(newPreferences || {})}`.
`newPreferences` is `Option (Sum Bool Prefs)`: `none` is the absent /
`undefined` argument. -/
def mergePreferences (destinations : List Destination)
    (existingPreferences : Prefs) (newPreferences : Option (Sum Bool Prefs)) :
    Prefs :=
  match newPreferences with
  | some (Sum.inl b) =>
      destinations.foldl
        (fun prefs destination => objSpread prefs [(destination.id, JSVal.bool b)]) []
  | some (Sum.inr p) => objSpread existingPreferences p
  | none => objSpread existingPreferences []

/-- The record `loadPreferences()` yields (the Preference Store's `load()`):
both fields optional, `none` standing for `undefined`. -/
structure LoadedPrefs where
  destinationPreferences : Option Prefs
  customPreferences : Option Prefs
deriving DecidableEq

/-- The output of a caller-supplied `mapCustomPreferences` adapter. The
TypeScript declares `customPreferences` as required but `handleSaveConsent`
guards with `if (customPreferences)`, so it is modelled optional. -/
structure MappedPrefs where
  destinationPreferences : Prefs
  customPreferences : Option Prefs

/-- The component's props after React has substituted `defaultProps`
(`otherWriteKeys = []`, `shouldRequireConsent = () => true`,
`initialPreferences = {}`); `shouldRequireConsent`'s resolved value is an
input of `initialise` below. `onError` only matters by presence. -/
structure Props where
  writeKey : String
  otherWriteKeys : List String := []
  cookieDomain : Option String := none
  initialPreferences : Prefs := []
  mapCustomPreferences : Option (List Destination → Prefs → MappedPrefs) := none
  onError : Option Unit := none

/-- The component's state. `destinationPreferences` is not declared in the
TypeScript `State` interface but `handleSaveConsent` writes it (line 249);
it is absent (`none`) until the first save. -/
structure EngineState where
  isLoading : Bool
  destinations : List Destination
  newDestinations : List Destination
  preferences : Option Prefs
  isConsentRequired : Bool
  destinationPreferences : Option Prefs
deriving DecidableEq

/-- The initial state (src lines 94-100). -/
def initialState : EngineState where
  isLoading := true
  destinations := []
  newDestinations := []
  preferences := some []
  isConsentRequired := true
  destinationPreferences := none

/-- The side effects an engine operation emits: a Preference Store write
(`savePreferences`) or an analytics activation (`conditionallyLoadAnalytics`,
whose `shouldReload` argument is absent during initialization). -/
inductive Effect where
  | save (destinationPreferences : Prefs) (customPreferences : Option Prefs)
      (cookieDomain : Option String)
  | analytics (writeKey : String) (destinations : List Destination)
      (destinationPreferences : Prefs) (isConsentRequired : Bool)
      (shouldReload : Option Bool)
deriving DecidableEq

/-- The body of `initialise` (src lines 134-184) after its three asynchronous
inputs have resolved: `loaded` is the `loadPreferences()` record,
`isConsentRequired` and `destinations` the joined results of
`shouldRequireConsent()` and `fetchDestinations`.

Mirrors the source exactly: the missing destination-level record is defaulted
to the empty object by the destructuring `destinationPreferences = {}`
(line 143); `newDestinations` is computed from that loaded value BEFORE the
fresh-user branch (lines 150 vs 161-165); with an adapter, the exposed
preferences are `customPreferences || initialPreferences || {}` (line 154) and
the fresh-user branch replaces only the working `destinationPreferences` (and
the thereafter-unused `customPreferences`), never `preferences`; without an
adapter, `preferences = destinationPreferences || initialPreferences`
(line 167), in which the fallback cannot trigger because the left operand was
already defaulted to the (truthy) empty object. The resolved pair is
(exposed preferences, working destination-level preferences); the latter is
what `conditionallyLoadAnalytics` receives (lines 170-175). -/
def initialiseCore (props : Props) (st : EngineState) (loaded : LoadedPrefs)
    (isConsentRequired : Bool) (destinations : List Destination) :
    EngineState × List Effect :=
  let destinationPreferences0 := loaded.destinationPreferences.getD []
  let newDestinations :=
    destinationsWithoutConsent destinations (some destinationPreferences0)
  let resolved : Prefs × Prefs :=
    match props.mapCustomPreferences with
    | some mapFn =>
        let preferences := loaded.customPreferences.getD props.initialPreferences
        let hasInitialPreferenceToTrue :=
          (props.initialPreferences.map Prod.snd).any JSVal.isTruthy
        let emptyCustomPreferecences :=
          ((loaded.customPreferences.getD []).map Prod.snd).all JSVal.isNullOrUndef
        if hasInitialPreferenceToTrue && emptyCustomPreferecences then
          (preferences, (mapFn destinations preferences).destinationPreferences)
        else
          (preferences, destinationPreferences0)
    | none => (destinationPreferences0, destinationPreferences0)
  ({ st with
      isLoading := false
      destinations := destinations
      newDestinations := newDestinations
      preferences := some resolved.1
      isConsentRequired := isConsentRequired },
   [Effect.analytics props.writeKey destinations resolved.2 isConsentRequired none])

/-- The three asynchronous inputs of `initialise`, each possibly rejecting. -/
structure InitEnv where
  loadResult : Except String LoadedPrefs
  shouldRequireConsentResult : Except String Bool
  fetchResult : Except String (List Destination)

/-- `initialise` with failure: the `Promise.all` join rejects as a whole when
either lookup rejects, and a rejection anywhere aborts the whole
initialization without touching the state. -/
def initialise (props : Props) (st : EngineState) (env : InitEnv) :
    Except String (EngineState × List Effect) := do
  let loaded ← env.loadResult
  let isConsentRequired ← env.shouldRequireConsentResult
  let destinations ← env.fetchResult
  pure (initialiseCore props st loaded isConsentRequired destinations)

/-- `handleSetPreferences` (src lines 186-192): merge into the previous
state's preferences and replace that field only; no effect is emitted. -/
def handleSetPreferences (st : EngineState) (newPreferences : Prefs) :
    EngineState × List Effect :=
  let preferences :=
    mergePreferences st.destinations (st.preferences.getD [])
      (some (Sum.inr newPreferences))
  ({ st with preferences := some preferences }, [])

/-- `handleResetPreferences` (src lines 194-206): re-read the store (`loaded`)
and resolve `preferences` as `customPreferences || initialPreferences` with an
adapter, `destinationPreferences || initialPreferences` without; note the
destination-level record is NOT defaulted to the empty object here, so on a
missing record the fallback to `initialPreferences` does trigger. -/
def handleResetPreferences (props : Props) (st : EngineState)
    (loaded : LoadedPrefs) : EngineState :=
  let preferences :=
    match props.mapCustomPreferences with
    | some _ => loaded.customPreferences.getD props.initialPreferences
    | none => loaded.destinationPreferences.getD props.initialPreferences
  { st with preferences := some preferences }

/-- `handleSaveConsent` (src lines 208-251): merge, resolve the
destination-level and custom preferences through the adapter when one is
configured (adapter custom output, when present, replaces the exposed
preferences; otherwise the merged preferences double as the custom record),
recompute `newDestinations` against the fresh destination-level preferences,
write the store and trigger analytics. The resolved triple is
(exposed preferences, destination-level preferences, custom preferences). -/
def handleSaveConsent (props : Props) (prevState : EngineState)
    (newPreferences : Option (Sum Bool Prefs)) (shouldReload : Bool) :
    EngineState × List Effect :=
  let destinations := prevState.destinations
  let merged :=
    mergePreferences destinations (prevState.preferences.getD []) newPreferences
  let resolved : Prefs × Prefs × Option Prefs :=
    match props.mapCustomPreferences with
    | some mapFn =>
        let custom := mapFn destinations merged
        match custom.customPreferences with
        | some cp => (cp, custom.destinationPreferences, some cp)
        | none => (merged, custom.destinationPreferences, some merged)
    | none => (merged, merged, none)
  let newDestinations :=
    destinationsWithoutConsent destinations (some resolved.2.1)
  ({ prevState with
      destinationPreferences := some resolved.2.1
      preferences := some resolved.1
      newDestinations := newDestinations },
   [Effect.save resolved.2.1 resolved.2.2 props.cookieDomain,
    Effect.analytics props.writeKey destinations resolved.2.1
      prevState.isConsentRequired (some shouldReload)])

/-- What `render` (src lines 102-119) exposes to the children callback;
`none` models rendering nothing. -/
structure RenderSnapshot where
  destinations : List Destination
  newDestinations : List Destination
  preferences : Option Prefs
  isConsentRequired : Bool
deriving DecidableEq

/-- `render`: nothing while `isLoading`, otherwise the state snapshot. -/
def render (st : EngineState) : Option RenderSnapshot :=
  if st.isLoading then none
  else
    some { destinations := st.destinations
           newDestinations := st.newDestinations
           preferences := st.preferences
           isConsentRequired := st.isConsentRequired }

/-- The outcome of mounting: ready with the initialized state and effects, or
an initialization failure either routed to the configured `onError` handler
(state untouched) or propagated uncaught. -/
inductive MountOutcome where
  | ready (st : EngineState) (effects : List Effect)
  | handledError (e : String) (st : EngineState)
  | uncaught (e : String)
deriving DecidableEq

/-- `componentDidMount` (src lines 121-132): with an `onError` handler the
whole `initialise` is awaited inside try/catch and a rejection is passed to
the handler; without one it is awaited bare and a rejection propagates. -/
def componentDidMount (props : Props) (env : InitEnv) : MountOutcome :=
  match props.onError with
  | some _ =>
      match initialise props initialState env with
      | Except.ok r => MountOutcome.ready r.1 r.2
      | Except.error e => MountOutcome.handledError e initialState
  | none =>
      match initialise props initialState env with
      | Except.ok r => MountOutcome.ready r.1 r.2
      | Except.error e => MountOutcome.uncaught e

/-- Transcription of the claimed diff semantics in which membership is decided
by KEY PRESENCE (a destination is returned exactly when its id is not a key of
the mapping), to be compared with the source's `destinationsWithoutConsent`. -/
def diffByKeyAbsence (destinations : List Destination)
    (destinationPreferences : Option Prefs) : List Destination :=
  match destinationPreferences with
  | none => destinations
  | some p => destinations.filter (fun d => (List.lookup d.id p).isNone)

/-- A concrete adapter configuration used by the examples: it consents every
fetched destination and returns no custom record, and the caller supplies an
initial category preference set to `true`. -/
def exAdapterProps : Props where
  writeKey := "wk"
  initialPreferences := [("m", JSVal.bool true)]
  mapCustomPreferences := some (fun ds _ =>
    { destinationPreferences := ds.map (fun d => (d.id, JSVal.bool true))
      customPreferences := none })

/-- A props record with a non-empty caller-supplied initial preference set and
no adapter. -/
def exInitialProps : Props where
  writeKey := "wk"
  initialPreferences := [("a", JSVal.bool true)]

/-- A Preference Store with no persisted record at all. -/
def exLoadedEmpty : LoadedPrefs where
  destinationPreferences := none
  customPreferences := none

/-- A Preference Store holding the destination-level record `{a: true}`. -/
def exLoadedA : LoadedPrefs where
  destinationPreferences := some [("a", JSVal.bool true)]
  customPreferences := none

/-- The ready state of the spec's end-to-end example: destinations `a`, `b`,
persisted decision `{a: true}`, so `b` is still undecided. -/
def exSaveState : EngineState where
  isLoading := false
  destinations := [{ id := "a" }, { id := "b" }]
  newDestinations := [{ id := "b" }]
  preferences := some [("a", JSVal.bool true)]
  isConsentRequired := true
  destinationPreferences := none

/-- An initialization environment whose destination fetch rejects. -/
def exEnvFail : InitEnv where
  loadResult := Except.ok exLoadedEmpty
  shouldRequireConsentResult := Except.ok true
  fetchResult := Except.error "network"

/-- A stored value passes the `=== undefined` test exactly when it is
`undefined`. -/
theorem JSVal.isUndef_eq_true_iff (v : JSVal) :
    v.isUndef = true ↔ v = JSVal.undef := by
  cases v <;> simp [JSVal.isUndef]

/-- Association-list lookup distributes over append, preferring the left
list. -/
theorem lookup_append {β : Type} (k : String) (p q : List (String × β)) :
    List.lookup k (p ++ q) = (List.lookup k p).or (List.lookup k q) := by
  induction p with
  | nil => rfl
  | cons kv t ih =>
      obtain ⟨a, v⟩ := kv
      by_cases h : k = a
      · simp [List.lookup, h]
      · simp only [List.cons_append, List.lookup]
        have hb : (k == a) = false := beq_false_of_ne h
        simp [hb, ih]

/-- Lookup through the override map of `objSpread`: each key of `e` keeps its
key but takes `n`'s value when `n` has it. -/
theorem lookup_map_override (n : List (String × JSVal)) (k : String) :
    ∀ e : List (String × JSVal),
      List.lookup k (e.map (fun kv => (kv.1, (List.lookup kv.1 n).getD kv.2)))
        = (List.lookup k e).map (fun v => (List.lookup k n).getD v) := by
  intro e
  induction e with
  | nil => rfl
  | cons kv t ih =>
      obtain ⟨a, v⟩ := kv
      by_cases h : k = a
      · subst h; simp [List.lookup]
      · have hb : (k == a) = false := beq_false_of_ne h
        simp [List.lookup, hb, ih]

/-- Lookup through the append part of `objSpread`: when `e` lacks the key,
filtering `n` down to the keys absent from `e` does not change the lookup. -/
theorem lookup_filter_absent (e : List (String × JSVal)) (k : String)
    (hk : List.lookup k e = none) :
    ∀ n : List (String × JSVal),
      List.lookup k (n.filter (fun kv => (List.lookup kv.1 e).isNone))
        = List.lookup k n := by
  intro n
  induction n with
  | nil => rfl
  | cons kv t ih =>
      obtain ⟨a, v⟩ := kv
      by_cases h : k = a
      · subst h
        simp [List.filter, hk, List.lookup]
      · have hb : (k == a) = false := beq_false_of_ne h
        cases hin : (List.lookup a e).isNone
        · simp [List.filter, hin, ih, List.lookup, hb]
        · simp [List.filter, hin, List.lookup, hb, ih]

/-- The characteristic property of JavaScript spread `{...e, ...n}`: a lookup
sees `n`'s binding when present, otherwise `e`'s. -/
theorem lookup_objSpread (e n : List (String × JSVal)) (k : String) :
    List.lookup k (objSpread e n) = (List.lookup k n).or (List.lookup k e) := by
  unfold objSpread
  rw [lookup_append, lookup_map_override]
  cases he : List.lookup k e
  · rw [lookup_filter_absent e k he n]
    cases List.lookup k n <;> rfl
  · cases List.lookup k n <;> rfl

/-- Spreading the empty object changes nothing: `{...e} = e`. -/
theorem objSpread_nil_right (e : Prefs) : objSpread e [] = e := by
  unfold objSpread
  simp

/-- Lookup after the broadcast `reduce` of `mergePreferences`: every id of the
destination list is bound to the broadcast boolean, all other keys fall back
to the accumulator. -/
theorem lookup_broadcast_foldl (b : Bool) (k : String) :
    ∀ (destinations : List Destination) (acc : Prefs),
      List.lookup k
          (destinations.foldl
            (fun prefs destination =>
              objSpread prefs [(destination.id, JSVal.bool b)]) acc)
        = if k ∈ destinations.map (fun d => d.id) then some (JSVal.bool b)
          else List.lookup k acc := by
  intro destinations
  induction destinations with
  | nil => intro acc; simp
  | cons d t ih =>
      intro acc
      simp only [List.foldl_cons, List.map_cons, List.mem_cons]
      rw [ih, lookup_objSpread]
      by_cases hm : k ∈ t.map (fun d => d.id)
      · simp [hm]
      · by_cases hk : k = d.id
        · simp [hm, hk, List.lookup]
        · have hb : (k == d.id) = false := beq_false_of_ne hk
          simp [hm, hk, List.lookup, hb]

/-- C4 counterexample: the claimed key-presence semantics of the diff fails on
a mapping that stores `undefined` under a present key: the source's diff keeps
the destination (its stored value is `undefined`) while the subset of
destinations whose id is not a key of the mapping is empty. -/
theorem diff_key_presence_counterexample :
    destinationsWithoutConsent [{ id := "a" }] (some [("a", JSVal.undef)])
      ≠ diffByKeyAbsence [{ id := "a" }] (some [("a", JSVal.undef)]) := by
  decide

/-- C4 (amended): for every destination sequence and preference mapping, the
diff is an order-preserving subsequence of the input containing exactly the
destinations whose stored value is `undefined` (absent key, or a key
explicitly bound to `undefined`), and the diff against the absent mapping
returns the destinations unchanged. -/
theorem diff_undecided_subsequence :
    (∀ (destinations : List Destination) (p : Prefs),
        List.Sublist (destinationsWithoutConsent destinations (some p)) destinations
          ∧ ∀ d : Destination,
              d ∈ destinationsWithoutConsent destinations (some p)
                ↔ d ∈ destinations ∧ getJS p d.id = JSVal.undef)
      ∧ ∀ destinations : List Destination,
          destinationsWithoutConsent destinations none = destinations := by
  refine ⟨fun destinations p => ⟨List.filter_sublist destinations, fun d => ?_⟩,
    fun destinations => rfl⟩
  simp [destinationsWithoutConsent, List.mem_filter, JSVal.isUndef_eq_true_iff]

/-- C10: membership in the diff is decided by the stored value, not key
presence: a destination is kept exactly when the mapping's value at its id is
`undefined`; in particular a key explicitly present with value `undefined`
still counts as undecided, while a key bound to `null`, `false` or `true`
counts as decided. -/
theorem diff_decided_by_stored_value :
    (∀ (destinations : List Destination) (p : Prefs) (d : Destination),
        d ∈ destinationsWithoutConsent destinations (some p)
          ↔ d ∈ destinations ∧ getJS p d.id = JSVal.undef)
      ∧ (∀ (destinations : List Destination) (d : Destination),
          d ∈ destinations →
          d ∈ destinationsWithoutConsent destinations (some [(d.id, JSVal.undef)]))
      ∧ ∀ (destinations : List Destination) (d : Destination) (v : JSVal),
          v ≠ JSVal.undef →
          d ∉ destinationsWithoutConsent destinations (some [(d.id, v)]) := by
  have hmem : ∀ (destinations : List Destination) (p : Prefs) (d : Destination),
      d ∈ destinationsWithoutConsent destinations (some p)
        ↔ d ∈ destinations ∧ getJS p d.id = JSVal.undef := by
    intro destinations p d
    simp [destinationsWithoutConsent, List.mem_filter, JSVal.isUndef_eq_true_iff]
  have hself : ∀ (d : Destination) (v : JSVal), getJS [(d.id, v)] d.id = v := by
    intro d v
    simp [getJS, List.lookup]
  refine ⟨hmem, fun destinations d hd => ?_, fun destinations d v hv hin => ?_⟩
  · exact (hmem destinations _ d).mpr ⟨hd, hself d JSVal.undef⟩
  · have h2 := ((hmem destinations _ d).mp hin).2
    rw [hself d v] at h2
    exact hv h2

/-- C10 witness: with destination `a` alone, the key `a` explicitly bound to
`undefined` keeps `a` in the diff, while the key `a` bound to `null` removes
it. -/
theorem diff_decided_by_stored_value_witness :
    (({ id := "a" } : Destination)
        ∈ destinationsWithoutConsent [{ id := "a" }] (some [("a", JSVal.undef)]))
      ∧ ({ id := "a" } : Destination)
          ∉ destinationsWithoutConsent [{ id := "a" }] (some [("a", JSVal.null)]) := by
  constructor
  · exact diff_decided_by_stored_value.2.1 [{ id := "a" }] { id := "a" } (by decide)
  · exact diff_decided_by_stored_value.2.2 [{ id := "a" }] { id := "a" } JSVal.null
      (by decide)

/-- C5: merging a boolean broadcasts it: the resulting mapping binds exactly
the ids of the destination list, each to that boolean; every key outside the
destination ids is absent, whatever the existing preferences held. -/
theorem merge_broadcast_keys (destinations : List Destination)
    (existingPreferences : Prefs) (b : Bool) (k : String) :
    List.lookup k (mergePreferences destinations existingPreferences (some (Sum.inl b)))
      = if k ∈ destinations.map (fun d => d.id) then some (JSVal.bool b)
        else none := by
  unfold mergePreferences
  rw [lookup_broadcast_foldl]
  rfl

/-- C6: merging a non-boolean is the shallow merge of the new preferences over
the existing ones (new bindings win, untouched existing bindings survive, no
other key appears), an absent argument leaves the existing preferences
unchanged, and the spec's concrete examples hold whatever the destination
catalog is. -/
theorem merge_shallow_lookup :
    (∀ (destinations : List Destination) (existingPreferences n : Prefs) (k : String),
        List.lookup k
            (mergePreferences destinations existingPreferences (some (Sum.inr n)))
          = (List.lookup k n).or (List.lookup k existingPreferences))
      ∧ (∀ (destinations : List Destination) (existingPreferences : Prefs),
          mergePreferences destinations existingPreferences none = existingPreferences)
      ∧ (∀ destinations : List Destination,
          mergePreferences destinations [("a", JSVal.bool true)]
              (some (Sum.inr [("b", JSVal.bool false)]))
            = [("a", JSVal.bool true), ("b", JSVal.bool false)])
      ∧ ∀ destinations : List Destination,
          mergePreferences destinations [("a", JSVal.bool true)] none
            = [("a", JSVal.bool true)] := by
  refine ⟨fun destinations e n k => lookup_objSpread e n k,
    fun destinations e => objSpread_nil_right e, fun destinations => ?_,
    fun destinations => ?_⟩ <;> rfl

/-- C9: `setPreferences` only replaces the `preferences` field with the merge
of its input over the current preferences; it emits no Preference Store write
and no analytics activation, and every other state field is unchanged. -/
theorem setPreferences_frame (st : EngineState) (newPreferences : Prefs) :
    (handleSetPreferences st newPreferences).2 = []
      ∧ (handleSetPreferences st newPreferences).1.preferences
          = some (mergePreferences st.destinations (st.preferences.getD [])
              (some (Sum.inr newPreferences)))
      ∧ (handleSetPreferences st newPreferences).1.newDestinations
          = st.newDestinations
      ∧ (handleSetPreferences st newPreferences).1.destinations = st.destinations
      ∧ (handleSetPreferences st newPreferences).1.isConsentRequired
          = st.isConsentRequired
      ∧ (handleSetPreferences st newPreferences).1.isLoading = st.isLoading
      ∧ (handleSetPreferences st newPreferences).1.destinationPreferences
          = st.destinationPreferences :=
  ⟨rfl, rfl, rfl, rfl, rfl, rfl, rfl⟩

/-- C2 counterexample: with no adapter, a missing persisted destination-level
record and the non-empty caller-supplied initial preferences `{a: true}`,
initialization exposes the empty mapping, not the initial preferences: the
destructuring default turns the missing record into the (truthy) empty
object before the fallback is consulted. -/
theorem init_missing_record_counterexample :
    (initialiseCore exInitialProps initialState exLoadedEmpty true []).1.preferences
      ≠ some exInitialProps.initialPreferences := by
  decide

/-- C2 (amended): with no custom-preference adapter, the preferences exposed
by initialization are always the loaded destination-level record, a missing
record standing for the empty mapping; the caller-supplied initial
preferences are never consulted on this path. -/
theorem init_preferences_no_adapter (props : Props) (st : EngineState)
    (loaded : LoadedPrefs) (isConsentRequired : Bool)
    (destinations : List Destination)
    (h : props.mapCustomPreferences = none) :
    (initialiseCore props st loaded isConsentRequired destinations).1.preferences
      = some (loaded.destinationPreferences.getD []) := by
  simp [initialiseCore, h]

/-- C2 witness: a stored record `{a: true}` is exposed as the preferences. -/
theorem init_preferences_no_adapter_witness :
    (initialiseCore { writeKey := "wk" } initialState exLoadedA true []).1.preferences
      = some [("a", JSVal.bool true)] :=
  init_preferences_no_adapter { writeKey := "wk" } initialState exLoadedA true [] rfl

/-- C3 counterexample: on a missing persisted record with no adapter and
caller-supplied initial preferences `{a: true}`, `resetPreferences` resolves
the initial preferences while initialization resolves the empty mapping, so
the two fallback orders differ. -/
theorem reset_init_divergence_counterexample :
    (handleResetPreferences exInitialProps initialState exLoadedEmpty).preferences
      ≠ (initialiseCore exInitialProps initialState exLoadedEmpty true []).1.preferences := by
  decide

/-- C3 (amended): `resetPreferences` re-reads the store and resolves the same
preferences value initialization would expose from the same store content —
from any in-memory state, and although it never re-invokes the fresh-user
adapter trigger — except in the no-adapter case with a missing
destination-level record, where reset falls back to the caller-supplied
initial preferences while initialization exposes the empty mapping; with an
adapter configured, or with a destination-level record present, the two
agree. -/
theorem reset_matches_init_resolution (props : Props) (st st2 : EngineState)
    (loaded : LoadedPrefs) (isConsentRequired : Bool)
    (destinations : List Destination)
    (h : props.mapCustomPreferences.isSome = true
          ∨ loaded.destinationPreferences.isSome = true) :
    (handleResetPreferences props st loaded).preferences
      = (initialiseCore props st2 loaded isConsentRequired destinations).1.preferences := by
  cases hm : props.mapCustomPreferences with
  | some mapFn =>
      simp only [handleResetPreferences, initialiseCore, hm]
      split <;> rfl
  | none =>
      rcases h with h1 | h2
      · rw [hm] at h1
        simp at h1
      · cases hd : loaded.destinationPreferences with
        | none => rw [hd] at h2; simp at h2
        | some dp => simp [handleResetPreferences, initialiseCore, hm, hd]

/-- C3 witness: with the destination-level record `{a: true}` present and no
adapter, reset and initialization resolve the same preferences, from
different in-memory states. -/
theorem reset_matches_init_resolution_witness :
    (handleResetPreferences { writeKey := "wk" } exSaveState exLoadedA).preferences
      = (initialiseCore { writeKey := "wk" } initialState exLoadedA true
          [{ id := "a" }]).1.preferences :=
  reset_matches_init_resolution { writeKey := "wk" } exSaveState initialState exLoadedA
    true [{ id := "a" }] (Or.inr rfl)

/-- C1 counterexample: in the fresh-user initialization branch the adapter's
output is adopted as the working destination-level preferences (it is what
the analytics activation receives), yet `newDestinations` was computed
against the previously loaded record: with no persisted record, initial
preference `{m: true}` and an adapter consenting every destination, the
engine ends with `newDestinations = [a]` although the working mapping
`{a: true}` leaves no destination undecided. -/
theorem freshUser_newDestinations_counterexample :
    ((initialiseCore exAdapterProps initialState exLoadedEmpty true [{ id := "a" }]).2
        = [Effect.analytics "wk" [{ id := "a" }] [("a", JSVal.bool true)] true none])
      ∧ (initialiseCore exAdapterProps initialState exLoadedEmpty true
            [{ id := "a" }]).1.newDestinations
          ≠ destinationsWithoutConsent
              (initialiseCore exAdapterProps initialState exLoadedEmpty true
                [{ id := "a" }]).1.destinations
              (some [("a", JSVal.bool true)]) := by
  constructor
  · rfl
  · decide

/-- C1 (amended): after initialization `newDestinations` equals exactly the
subset of the fetched destinations undecided (value `undefined`) under the
destination-level preferences as LOADED from the store — not under the
working mapping a fresh-user adapter adoption may have replaced them with —
and after every `saveConsent` it equals exactly the subset undecided under
the just-persisted destination-level preferences (the mapping of the emitted
store write, which the state also records). -/
theorem newDestinations_diff_invariant :
    (∀ (props : Props) (st : EngineState) (loaded : LoadedPrefs)
        (isConsentRequired : Bool) (destinations : List Destination),
        (initialiseCore props st loaded isConsentRequired
              destinations).1.newDestinations
            = destinationsWithoutConsent destinations
                (some (loaded.destinationPreferences.getD []))
          ∧ (initialiseCore props st loaded isConsentRequired
                destinations).1.destinations
              = destinations)
      ∧ ∀ (props : Props) (st : EngineState)
          (newPreferences : Option (Sum Bool Prefs)) (shouldReload : Bool),
          ∃ dp cp,
            (handleSaveConsent props st newPreferences shouldReload).2
                = [Effect.save dp cp props.cookieDomain,
                   Effect.analytics props.writeKey st.destinations dp
                     st.isConsentRequired (some shouldReload)]
              ∧ (handleSaveConsent props st newPreferences
                    shouldReload).1.destinationPreferences
                  = some dp
              ∧ (handleSaveConsent props st newPreferences
                    shouldReload).1.newDestinations
                  = destinationsWithoutConsent st.destinations (some dp) := by
  refine ⟨fun props st loaded isConsentRequired destinations => ⟨rfl, rfl⟩,
    fun props st newPreferences shouldReload => ⟨_, _, rfl, rfl, rfl⟩⟩

/-- C7: `saveConsent` recomputes the diff against the freshly resolved
destination-level preferences (the mapping the state records and the store
write persists); consequently, without an adapter, a destination previously
in `newDestinations` disappears from it after `saveConsent({x: true})`; and
the bulk accept-all scenario from the ready state with destinations `a`, `b`
and preferences `{a: true}` yields preferences `{a: true, b: true}`, an empty
`newDestinations`, and a store write with that full mapping. -/
theorem saveConsent_recomputes_diff :
    (∀ (props : Props) (st : EngineState)
        (newPreferences : Option (Sum Bool Prefs)) (shouldReload : Bool),
        (handleSaveConsent props st newPreferences shouldReload).1.newDestinations
          = destinationsWithoutConsent st.destinations
              ((handleSaveConsent props st newPreferences
                  shouldReload).1.destinationPreferences))
      ∧ (∀ (props : Props) (st : EngineState) (shouldReload : Bool)
          (x : Destination),
          props.mapCustomPreferences = none →
          x ∈ st.newDestinations →
          x ∉ (handleSaveConsent props st
                (some (Sum.inr [(x.id, JSVal.bool true)]))
                shouldReload).1.newDestinations)
      ∧ (handleSaveConsent { writeKey := "wk" } exSaveState (some (Sum.inl true))
            false).1.preferences
          = some [("a", JSVal.bool true), ("b", JSVal.bool true)]
      ∧ (handleSaveConsent { writeKey := "wk" } exSaveState (some (Sum.inl true))
            false).1.newDestinations
          = []
      ∧ (handleSaveConsent { writeKey := "wk" } exSaveState (some (Sum.inl true))
            false).2
          = [Effect.save [("a", JSVal.bool true), ("b", JSVal.bool true)] none none,
             Effect.analytics "wk" [{ id := "a" }, { id := "b" }]
               [("a", JSVal.bool true), ("b", JSVal.bool true)] true (some false)] := by
  refine ⟨fun props st newPreferences shouldReload => rfl,
    fun props st shouldReload x hm hx hin => ?_, by decide, by decide, by decide⟩
  have hval : getJS
      (mergePreferences st.destinations (st.preferences.getD [])
        (some (Sum.inr [(x.id, JSVal.bool true)]))) x.id
      = JSVal.bool true := by
    unfold mergePreferences getJS
    rw [lookup_objSpread]
    simp [List.lookup]
  have hfilter : x ∈ List.filter
      (fun d => (getJS
        (mergePreferences st.destinations (st.preferences.getD [])
          (some (Sum.inr [(x.id, JSVal.bool true)]))) d.id).isUndef)
      st.destinations := by
    simpa [handleSaveConsent, hm, destinationsWithoutConsent] using hin
  have h2 := (List.mem_filter.mp hfilter).2
  rw [hval] at h2
  simp [JSVal.isUndef] at h2

/-- C7 witness: from the ready state with destinations `a`, `b` and persisted
decision `{a: true}` (so `b` is in `newDestinations`), saving `{b: true}`
removes `b` from `newDestinations`. -/
theorem saveConsent_recomputes_diff_witness :
    ({ id := "b" } : Destination)
      ∉ (handleSaveConsent { writeKey := "wk" } exSaveState
          (some (Sum.inr [("b", JSVal.bool true)])) false).1.newDestinations :=
  saveConsent_recomputes_diff.2.1 { writeKey := "wk" } exSaveState false
    { id := "b" } rfl (by decide)

/-- C8: when initialization rejects (the store load, the consent-requirement
predicate or the destination fetch fails), a configured error handler
receives the error, the state keeps `isLoading = true` (it is never written)
and the render callback yields nothing for that state; with no handler
configured the same failure propagates uncaught out of mounting. -/
theorem mount_error_handling (props : Props) (env : InitEnv) (e : String)
    (h : initialise props initialState env = Except.error e) :
    (props.onError.isSome = true →
        componentDidMount props env = MountOutcome.handledError e initialState
          ∧ initialState.isLoading = true ∧ render initialState = none)
      ∧ (props.onError = none →
          componentDidMount props env = MountOutcome.uncaught e) := by
  constructor
  · intro ho
    cases hoe : props.onError with
    | none => rw [hoe] at ho; simp at ho
    | some u =>
        refine ⟨?_, rfl, rfl⟩
        simp [componentDidMount, hoe, h]
  · intro ho
    simp [componentDidMount, ho, h]

/-- C8 witness: a rejecting destination fetch with a configured handler ends
in the handled-error outcome with the untouched initial state. -/
theorem mount_error_handling_witness :
    componentDidMount { writeKey := "wk", onError := some () } exEnvFail
      = MountOutcome.handledError "network" initialState :=
  ((mount_error_handling { writeKey := "wk", onError := some () } exEnvFail
      "network" rfl).1 rfl).1
